import Mathlib

/-!
Shallow embedding of the tollbooth-dpyc repository (Python) in Lean 4,
for checking the natural-language specification against the code.

Sources embedded here:
  * `src/tollbooth/ledger.py`        — `ToolUsage`, `InvoiceRecord`, `UserLedger`
    with `debit`, `rollback_debit`, `credit_deposit`, invoice-record helpers and
    JSON (de)serialization;
  * `src/tollbooth/certificate.py`   — `_JTIStore.check_and_record` and
    `verify_certificate` (the JWT cryptography itself is external to the repo:
    the outcome of `jwt.decode` is an input of the model);
  * `src/tollbooth/btcpay_client.py` — `sats_to_btc_string`;
  * `src/tollbooth/tools/credits.py` — `_attempt_royalty_payout`,
    `_create_purchase_invoice`, `purchase_credits_tool`, `check_payment_tool`,
    `compute_low_balance_warning`.

Modelling conventions:
  * Python `int` is `Int`; Python floats that only feed integer rounding
    (`royalty_percent`) are `ℚ` with explicit truncation, since exact decimal
    inputs such as 0.02 are handled exactly by the claims of interest.
  * Python `dict` (insertion-ordered, unique keys) is an association list
    `List (String × α)`; assignment replaces in place or appends at the end,
    exactly as CPython does.
  * Network / cache I/O is abstracted by passing the provider's response
    (`Except`) as an argument and by reporting, in the result, the request the
    code would have sent (`none` when no call is made).
-/

namespace Tollbooth

/-- JSON value tree. `json.dumps`/`json.loads` of the Python standard library
are outside the repository; serialization is modelled at the tree level. -/
inductive Json where
  | null : Json
  | bool (b : Bool) : Json
  | num (n : Int) : Json
  | str (s : String) : Json
  | arr (elems : List Json) : Json
  | obj (fields : List (String × Json)) : Json

/-- Python `d.get(k)` on a dict: first (= only) binding of `k`. -/
def jlookup (fields : List (String × Json)) (k : String) : Option Json :=
  (fields.find? (fun p => p.1 == k)).map (fun p => p.2)

/-- Python `d[k] = v` on a dict: replace the existing binding in place,
else append at the end (insertion order). -/
def setAssoc {α : Type} (m : List (String × α)) (k : String) (v : α) :
    List (String × α) :=
  if (m.find? (fun p => p.1 == k)).isSome then
    m.map (fun p => if p.1 == k then (p.1, v) else p)
  else
    m ++ [(k, v)]

/-- Python `d.setdefault(k, dflt)` followed by mutating the value with `f`. -/
def updateAssoc {α : Type} (m : List (String × α)) (k : String) (dflt : α)
    (f : α → α) : List (String × α) :=
  if (m.find? (fun p => p.1 == k)).isSome then
    m.map (fun p => if p.1 == k then (p.1, f p.2) else p)
  else
    m ++ [(k, f dflt)]

/-- Python `d.get(k)` returning the value, then mutating it with `f` only when the
key is present (Python mutates the shared object in place). -/
def modifyAssoc {α : Type} (m : List (String × α)) (k : String) (f : α → α) :
    List (String × α) :=
  m.map (fun p => if p.1 == k then (p.1, f p.2) else p)

/-- Python `int(x)` on a decoded-JSON value. On ints it is the identity; on
bools it gives 0/1. On the remaining shapes CPython would raise `ValueError`
(strings) or cannot arise from our encoders; the model totalises them to 0 —
no claim exercises those shapes. -/
def asInt : Json → Int
  | .num n => n
  | .bool true => 1
  | .bool false => 0
  | _ => 0

/-- Python `str(x)` on a decoded-JSON value. -/
def asStr : Json → String
  | .str s => s
  | .num n => toString n
  | .bool true => "True"
  | .bool false => "False"
  | .null => "None"
  | _ => ""

/-- A JSON value standing for `str | None`: `null`/absent is `none`. Python
stores other shapes untouched; they cannot arise from the encoders and are
totalised to `none`. -/
def asOptStr : Option Json → Option String
  | some (.str s) => some s
  | _ => none

/-- Encode `str | None`. -/
def optStr : Option String → Json
  | some s => .str s
  | none => .null

/-- Element decoder for JSON string arrays (`list(...)` keeps only the
strings; other element shapes cannot arise from the encoders). -/
def decStr : Json → Option String
  | .str s => some s
  | _ => none

-- ---------------------------------------------------------------------------
-- ToolUsage  (ledger.py lines 26-42)
-- ---------------------------------------------------------------------------

/-- Aggregate usage counter for a single tool. -/
structure ToolUsage where
  calls : Int := 0
  api_sats : Int := 0
  deriving Repr, DecidableEq

namespace ToolUsage

def to_dict (u : ToolUsage) : List (String × Json) :=
  [("calls", .num u.calls), ("api_sats", .num u.api_sats)]

/-- Accepts the legacy "sats" key when "api_sats" is absent. -/
def from_dict (data : List (String × Json)) : ToolUsage :=
  { calls := asInt ((jlookup data "calls").getD (.num 0))
    api_sats := asInt ((jlookup data "api_sats").getD
      ((jlookup data "sats").getD (.num 0))) }

end ToolUsage

-- ---------------------------------------------------------------------------
-- InvoiceRecord  (ledger.py lines 50-86)
-- ---------------------------------------------------------------------------

/-- Append-only record of a single BTCPay invoice. -/
structure InvoiceRecord where
  invoice_id : String
  amount_sats : Int
  api_sats_credited : Int := 0
  multiplier : Int := 1
  status : String := "Pending"
  created_at : String := ""
  settled_at : Option String := none
  btcpay_status : Option String := none
  deriving Repr, DecidableEq

namespace InvoiceRecord

def to_dict (r : InvoiceRecord) : List (String × Json) :=
  [("invoice_id", .str r.invoice_id),
   ("amount_sats", .num r.amount_sats),
   ("api_sats_credited", .num r.api_sats_credited),
   ("multiplier", .num r.multiplier),
   ("status", .str r.status),
   ("created_at", .str r.created_at),
   ("settled_at", optStr r.settled_at),
   ("btcpay_status", optStr r.btcpay_status)]

def from_dict (data : List (String × Json)) : InvoiceRecord :=
  { invoice_id := asStr ((jlookup data "invoice_id").getD (.str ""))
    amount_sats := asInt ((jlookup data "amount_sats").getD (.num 0))
    api_sats_credited := asInt ((jlookup data "api_sats_credited").getD (.num 0))
    multiplier := asInt ((jlookup data "multiplier").getD (.num 1))
    status := asStr ((jlookup data "status").getD (.str "Pending"))
    created_at := asStr ((jlookup data "created_at").getD (.str ""))
    settled_at := asOptStr (jlookup data "settled_at")
    btcpay_status := asOptStr (jlookup data "btcpay_status") }

end InvoiceRecord

/-- Encoder for one `tool: usage` pair inside `to_json`'s dict
comprehensions. -/
def encToolEntry (q : String × ToolUsage) : String × Json :=
  (q.1, .obj q.2.to_dict)

/-- Decoder for one `tool: usage` pair inside `from_json` (the
`isinstance(u, dict)` filter of the comprehension). -/
def decToolEntry (q : String × Json) : Option (String × ToolUsage) :=
  match q.2 with
  | .obj u => some (q.1, ToolUsage.from_dict u)
  | _ => none

/-- Encoder for one `day: {tool: usage}` pair inside `to_json`. -/
def encDayEntry (p : String × List (String × ToolUsage)) : String × Json :=
  (p.1, .obj (p.2.map encToolEntry))

/-- Decoder for one `day: {tool: usage}` pair inside `from_json` (the
`isinstance(tools, dict)` filter). -/
def decDayEntry (p : String × Json) :
    Option (String × List (String × ToolUsage)) :=
  match p.2 with
  | .obj tools => some (p.1, tools.filterMap decToolEntry)
  | _ => none

/-- Encoder for one `iid: record` pair inside `to_json`. -/
def encInvoiceEntry (p : String × InvoiceRecord) : String × Json :=
  (p.1, .obj p.2.to_dict)

/-- Decoder for one `iid: record` pair inside `from_json` (the
`isinstance(rec_data, dict)` filter). -/
def decInvoiceEntry (p : String × Json) : Option (String × InvoiceRecord) :=
  match p.2 with
  | .obj rec => some (p.1, InvoiceRecord.from_dict rec)
  | _ => none

-- ---------------------------------------------------------------------------
-- UserLedger  (ledger.py lines 94-310)
-- ---------------------------------------------------------------------------

/-- Per-user credit balance and usage tracking. Python dicts become ordered
association lists. -/
structure UserLedger where
  balance_api_sats : Int := 0
  total_deposited_api_sats : Int := 0
  total_consumed_api_sats : Int := 0
  pending_invoices : List String := []
  credited_invoices : List String := []
  last_deposit_at : Option String := none
  daily_log : List (String × List (String × ToolUsage)) := []
  history : List (String × ToolUsage) := []
  invoices : List (String × InvoiceRecord) := []
  deriving Repr, DecidableEq

namespace UserLedger

/-- Embeds `record_invoice_created` (ledger.py 115-126). -/
def record_invoice_created (L : UserLedger) (invoice_id : String)
    (amount_sats : Int) (multiplier : Int) (created_at : String) : UserLedger :=
  let newRec : InvoiceRecord :=
    { invoice_id := invoice_id
      amount_sats := amount_sats
      multiplier := multiplier
      status := "Pending"
      created_at := created_at
      btcpay_status := some "New" }
  { L with invoices := setAssoc L.invoices invoice_id newRec }

/-- Embeds `record_invoice_settled` (ledger.py 128-156). Creates a retroactive record
(amount 0, multiplier 0) when the invoice was not tracked at creation. -/
def record_invoice_settled (L : UserLedger) (invoice_id : String)
    (api_sats_credited : Int) (settled_at : String) (btcpay_status : String) :
    UserLedger :=
  if (L.invoices.find? (fun p => p.1 == invoice_id)).isSome then
    { L with invoices := modifyAssoc L.invoices invoice_id (fun r =>
        { r with status := "Settled", api_sats_credited := api_sats_credited
                 settled_at := some settled_at
                 btcpay_status := some btcpay_status }) }
  else
    { L with invoices := L.invoices ++ [(invoice_id,
        { invoice_id := invoice_id
          amount_sats := 0
          api_sats_credited := api_sats_credited
          multiplier := 0
          status := "Settled"
          created_at := ""
          settled_at := some settled_at
          btcpay_status := some btcpay_status })] }

/-- Embeds `record_invoice_terminal` (ledger.py 158-165). -/
def record_invoice_terminal (L : UserLedger) (invoice_id : String)
    (status : String) (btcpay_status : String) : UserLedger :=
  { L with invoices := modifyAssoc L.invoices invoice_id (fun r =>
      { r with status := status, btcpay_status := some btcpay_status }) }

/-- Embeds `debit` (ledger.py 169-189). `today` stands for `date.today().isoformat()`.
Returns the boolean result together with the post-state. -/
def debit (L : UserLedger) (tool_name : String) (api_sats : Int)
    (today : String) : Bool × UserLedger :=
  if api_sats < 0 then (false, L)
  else if L.balance_api_sats < api_sats then (false, L)
  else
    (true,
     { L with
       balance_api_sats := L.balance_api_sats - api_sats
       total_consumed_api_sats := L.total_consumed_api_sats + api_sats
       daily_log := updateAssoc L.daily_log today []
         (fun day_log => updateAssoc day_log tool_name {} (fun u =>
           { calls := u.calls + 1, api_sats := u.api_sats + api_sats }))
       history := updateAssoc L.history tool_name {} (fun u =>
         { calls := u.calls + 1, api_sats := u.api_sats + api_sats }) })

/-- Embeds `credit_deposit` (ledger.py 191-199). `today` stands for
`date.today().isoformat()`. -/
def credit_deposit (L : UserLedger) (api_sats : Int) (invoice_id : String)
    (today : String) : UserLedger :=
  { L with
    balance_api_sats := L.balance_api_sats + api_sats
    total_deposited_api_sats := L.total_deposited_api_sats + api_sats
    last_deposit_at := some today
    pending_invoices :=
      if invoice_id ∈ L.pending_invoices then
        L.pending_invoices.erase invoice_id
      else L.pending_invoices
    credited_invoices :=
      if invoice_id ∈ L.credited_invoices then L.credited_invoices
      else L.credited_invoices ++ [invoice_id] }

/-- Embeds `rollback_debit` (ledger.py 201-216). Counters are floored at zero. -/
def rollback_debit (L : UserLedger) (tool_name : String) (api_sats : Int)
    (today : String) : UserLedger :=
  { L with
    balance_api_sats := L.balance_api_sats + api_sats
    total_consumed_api_sats := L.total_consumed_api_sats - api_sats
    daily_log := modifyAssoc L.daily_log today (fun day_log =>
      modifyAssoc day_log tool_name (fun u =>
        { calls := max 0 (u.calls - 1), api_sats := max 0 (u.api_sats - api_sats) }))
    history := modifyAssoc L.history tool_name (fun u =>
      { calls := max 0 (u.calls - 1), api_sats := max 0 (u.api_sats - api_sats) }) }

/-- Embeds `to_json` (ledger.py 231-251), at the JSON-tree level. -/
def to_json (L : UserLedger) : Json :=
  .obj
    [("v", .num 3),
     ("balance_api_sats", .num L.balance_api_sats),
     ("total_deposited_api_sats", .num L.total_deposited_api_sats),
     ("total_consumed_api_sats", .num L.total_consumed_api_sats),
     ("pending_invoices", .arr (L.pending_invoices.map .str)),
     ("credited_invoices", .arr (L.credited_invoices.map .str)),
     ("last_deposit_at", optStr L.last_deposit_at),
     ("daily_log", .obj (L.daily_log.map encDayEntry)),
     ("history", .obj (L.history.map encToolEntry)),
     ("invoices", .obj (L.invoices.map encInvoiceEntry))]

/-- Helper for `from_json`: `int(obj.get(new_key, obj.get(old_key, 0)))`. -/
def getIntMigrated (fields : List (String × Json)) (newKey oldKey : String) :
    Int :=
  asInt ((jlookup fields newKey).getD ((jlookup fields oldKey).getD (.num 0)))

/-- Embeds `from_json` (ledger.py 253-310), at the JSON-tree level: the
string-parsing step (`json.loads`, whose failure yields a fresh ledger) is
the Python standard library and stays outside the model; the `not
isinstance(obj, dict)` branch is kept. Accepts legacy v1 `*_sats` keys. -/
def from_json (data : Json) : UserLedger :=
  match data with
  | .obj fields =>
    let daily_log : List (String × List (String × ToolUsage)) :=
      match (jlookup fields "daily_log").getD (.obj []) with
      | .obj days => days.filterMap decDayEntry
      | _ => []
    let history : List (String × ToolUsage) :=
      match (jlookup fields "history").getD (.obj []) with
      | .obj tools => tools.filterMap decToolEntry
      | _ => []
    let invoices : List (String × InvoiceRecord) :=
      match (jlookup fields "invoices").getD (.obj []) with
      | .obj recs => recs.filterMap decInvoiceEntry
      | _ => []
    { balance_api_sats := getIntMigrated fields "balance_api_sats" "balance_sats"
      total_deposited_api_sats :=
        getIntMigrated fields "total_deposited_api_sats" "total_deposited_sats"
      total_consumed_api_sats :=
        getIntMigrated fields "total_consumed_api_sats" "total_consumed_sats"
      pending_invoices :=
        match (jlookup fields "pending_invoices").getD (.arr []) with
        | .arr xs => xs.filterMap decStr
        | _ => []
      credited_invoices :=
        match (jlookup fields "credited_invoices").getD (.arr []) with
        | .arr xs => xs.filterMap decStr
        | _ => []
      last_deposit_at := asOptStr (jlookup fields "last_deposit_at")
      daily_log := daily_log
      history := history
      invoices := invoices }
  | _ => {}

end UserLedger

/-- A ledger blob written with the legacy schema-v1 key names: `balance_sats`,
`total_deposited_sats`, `total_consumed_sats`, and `sats` inside usage
counters. Built to state the migration half of the round-trip claim. -/
def legacyToolUsageDict (u : ToolUsage) : List (String × Json) :=
  [("calls", .num u.calls), ("sats", .num u.api_sats)]

/-- Legacy encoder for one `tool: usage` pair. -/
def encToolEntryLegacy (q : String × ToolUsage) : String × Json :=
  (q.1, .obj (legacyToolUsageDict q.2))

/-- Legacy encoder for one `day: {tool: usage}` pair. -/
def encDayEntryLegacy (p : String × List (String × ToolUsage)) :
    String × Json :=
  (p.1, .obj (p.2.map encToolEntryLegacy))

/-- The legacy-keyed encoding of a ledger (schema v1 field names). -/
def legacy_to_json (L : UserLedger) : Json :=
  .obj
    [("v", .num 1),
     ("balance_sats", .num L.balance_api_sats),
     ("total_deposited_sats", .num L.total_deposited_api_sats),
     ("total_consumed_sats", .num L.total_consumed_api_sats),
     ("pending_invoices", .arr (L.pending_invoices.map .str)),
     ("credited_invoices", .arr (L.credited_invoices.map .str)),
     ("last_deposit_at", optStr L.last_deposit_at),
     ("daily_log", .obj (L.daily_log.map encDayEntryLegacy)),
     ("history", .obj (L.history.map encToolEntryLegacy)),
     ("invoices", .obj (L.invoices.map encInvoiceEntry))]

-- ---------------------------------------------------------------------------
-- certificate.py — JTI store and verify_certificate
-- ---------------------------------------------------------------------------

/-- Constant `UNDERSTOOD_PROTOCOLS` (certificate.py line 13). -/
def UNDERSTOOD_PROTOCOLS : List String := ["dpyp-01-base-certificate"]

/-- The process-wide JTI store: `jti → expiry timestamp` in insertion order.
Timestamps are integer epoch seconds. -/
abbrev JtiStore := List (String × Int)

/-- Embeds `_JTIStore.check_and_record` (certificate.py 51-58), including the
`_cleanup` it performs first (drop entries with `e ≤ now`). The lock
serializes calls, so the model is a sequential state transformer. Returns
`true` when the jti is new (and records it), `false` on replay. -/
def checkAndRecord (store : JtiStore) (jti : String) (exp : Int) (now : Int) :
    Bool × JtiStore :=
  let cleaned := store.filter (fun p => p.2 > now)
  if (cleaned.find? (fun p => p.1 == jti)).isSome then (false, cleaned)
  else (true, cleaned ++ [(jti, exp)])

/-- Payload of a successfully signature-checked JWT, as `verify_certificate`
inspects it. The cryptography (`jwt.decode`, key loading) is a third-party
library: its outcome is an input of the model. `sub`/`amount_sats`/
`tax_paid_sats`/`net_sats` fold in the `claims.get(k, default)` defaults;
`jti`/`exp`/`dpyc_protocol` stay optional because the code tests them for
falsiness (`None`, empty string, zero). -/
structure DecodedClaims where
  sub : String := ""
  amount_sats : Int := 0
  tax_paid_sats : Int := 0
  net_sats : Int := 0
  jti : Option String := none
  exp : Option Int := none
  dpyc_protocol : Option String := none
  deriving Repr, DecidableEq

/-- The distinct `CertificateError` outcomes of `verify_certificate`.
`external` covers key-loading and JWT decode/signature/expiry failures
raised before the repository's own checks. -/
inductive CertErr where
  | external (msg : String)
  | missingJti
  | missingExp
  | replay (jti : String)
  | missingProtocol
  | unsupportedProtocol (proto : String)
  deriving Repr, DecidableEq

/-- Claims dict returned by `verify_certificate` (certificate.py 150-157). -/
structure CertOutput where
  operator_id : String
  amount_sats : Int
  tax_paid_sats : Int
  net_sats : Int
  jti : String
  dpyc_protocol : String
  deriving Repr, DecidableEq

/-- Embeds `verify_certificate` (certificate.py 71-157) as a state transformer on the
process-wide JTI store. `decodeOutcome` abstracts key loading plus
`jwt.decode`; `now` is the cleanup clock. `understood = none` models the
default argument, and an empty list is falsy in Python, so both fall back to
`UNDERSTOOD_PROTOCOLS`. -/
def verifyCertificate (decodeOutcome : Except String DecodedClaims)
    (understood : Option (List String)) (store : JtiStore) (now : Int) :
    Except CertErr CertOutput × JtiStore :=
  match decodeOutcome with
  | .error m => (.error (.external m), store)
  | .ok claims =>
    match claims.jti with
    | none => (.error .missingJti, store)
    | some jti =>
      if jti == "" then (.error .missingJti, store)
      else
        match claims.exp with
        | none => (.error .missingExp, store)
        | some exp =>
          if exp == 0 then (.error .missingExp, store)
          else
            let res := checkAndRecord store jti exp now
            if !res.1 then (.error (.replay jti), res.2)
            else
              let protos := match understood with
                | none => UNDERSTOOD_PROTOCOLS
                | some l => if l.isEmpty then UNDERSTOOD_PROTOCOLS else l
              match claims.dpyc_protocol with
              | none => (.error .missingProtocol, res.2)
              | some proto =>
                if proto == "" then (.error .missingProtocol, res.2)
                else if proto ∈ protos then
                  (.ok { operator_id := claims.sub
                         amount_sats := claims.amount_sats
                         tax_paid_sats := claims.tax_paid_sats
                         net_sats := claims.net_sats
                         jti := jti
                         dpyc_protocol := proto }, res.2)
                else (.error (.unsupportedProtocol proto), res.2)

-- ---------------------------------------------------------------------------
-- btcpay_client.py — sats_to_btc_string
-- ---------------------------------------------------------------------------

/-- Constant `_SATS_CONVERSION_MAX_DEFAULT` (btcpay_client.py line 53). -/
def SATS_CONVERSION_MAX_DEFAULT : Int := 100000000

/-- Zero-pad a natural number to 8 decimal digits. -/
def pad8 (n : Nat) : String :=
  let s := toString n
  String.mk (List.replicate (8 - s.length) '0') ++ s

/-- The 8-decimal-place BTC rendering of a satoshi count. The Python code
computes `f"{sats / 100_000_000:.8f}"` through a binary double; for every
`sats` in the accepted range the double's rounding error is far below half of
the 10⁻⁸ output quantum, so the printed string is exactly this decimal
rendering. -/
def btcDecimalString (n : Nat) : String :=
  toString (n / 100000000) ++ "." ++ pad8 (n % 100000000)

/-- Embeds `sats_to_btc_string` (btcpay_client.py 56-67). `ValueError` becomes
`Except.error`. -/
def sats_to_btc_string (sats : Int) (maxSats : Int) : Except String String :=
  if sats < 0 then .error "sats must be non-negative"
  else if sats > maxSats then .error "sats exceeds ceiling"
  else .ok (btcDecimalString sats.toNat)

-- ---------------------------------------------------------------------------
-- tools/credits.py — royalty payout, purchase, check_payment, low balance
-- ---------------------------------------------------------------------------

/-- Constant `MAX_INVOICE_SATS` (constants.py line 6). -/
def MAX_INVOICE_SATS : Int := 1000000

/-- Constant `LOW_BALANCE_FLOOR_API_SATS` (constants.py line 7). -/
def LOW_BALANCE_FLOOR_API_SATS : Int := 100

/-- Constant `ROYALTY_PAYOUT_MAX_SATS` (credits.py line 26). -/
def ROYALTY_PAYOUT_MAX_SATS : Int := 100000

/-- Python `int(x)` on a rational: truncation toward zero. The royalty rate is
a Python float; rates of interest (0.02 etc.) are modelled exactly in ℚ. -/
def pyTrunc (q : ℚ) : Int := q.num.tdiv (q.den : Int)

/-- Provider response to `create_payout`. -/
structure PayoutResponse where
  id : String := ""
  state : String := "Unknown"
  deriving Repr, DecidableEq

/-- The three result-dict shapes of `_attempt_royalty_payout` (besides
`None`): a successful payout, a refusal over the safety ceiling, and a
provider failure caught as an error dict. -/
inductive RoyaltyOutcome where
  | paid (royalty_sats : Int) (address : String) (payout_id payout_state : String)
  | refused (royalty_sats : Int) (address : String)
  | failed (royalty_sats : Int) (address : String) (err : String)
  deriving Repr, DecidableEq

/-- Embeds `_attempt_royalty_payout` (credits.py 29-75). `providerOutcome` is the
result the provider would return if called. The second component is the
payout request actually sent (`none` = `create_payout` never called). The
function is total: the Python code catches every `BTCPayError` and never
raises. -/
def attemptRoyaltyPayout (providerOutcome : Except String PayoutResponse)
    (invoice_amount_sats : Int) (royalty_address : String)
    (royalty_percent : ℚ) (royalty_min_sats : Int) :
    Option RoyaltyOutcome × Option Int :=
  let royalty_sats := pyTrunc ((invoice_amount_sats : ℚ) * royalty_percent)
  if royalty_sats < royalty_min_sats then (none, none)
  else if royalty_sats > ROYALTY_PAYOUT_MAX_SATS then
    (some (.refused royalty_sats royalty_address), none)
  else
    match providerOutcome with
    | .ok p => (some (.paid royalty_sats royalty_address p.id p.state),
                some royalty_sats)
    | .error e => (some (.failed royalty_sats royalty_address e),
                   some royalty_sats)

/-- Provider response to `create_invoice`. -/
structure CreatedInvoice where
  id : String := ""
  checkoutLink : String := ""
  expirationTime : String := ""
  deriving Repr, DecidableEq

/-- Result dict of the purchase tools (human-readable `message` text
omitted). -/
structure PurchaseResult where
  success : Bool
  error : Option String := none
  invoice_id : Option String := none
  amount_sats : Option Int := none
  tier : Option String := none
  multiplier : Option Int := none
  expected_credits : Option Int := none
  certificate_jti : Option String := none
  deriving Repr, DecidableEq

/-- Embeds `_create_purchase_invoice` (credits.py 112-186). Tier lookup
(`_get_tier_info`, a JSON-config parse) is abstracted to its result
`(tier_name, multiplier)`; cache flushing is I/O and outside the model.
Returns (result, ledger', invoice request sent to the provider — `none` when
`create_invoice` is never called). -/
def createPurchaseInvoice (createOutcome : Except String CreatedInvoice)
    (L : UserLedger) (amount_sats : Int) (tier_name : String)
    (multiplier : Int) (now : String) :
    PurchaseResult × UserLedger × Option Int :=
  if amount_sats ≤ 0 then
    ({ success := false, error := some "amount_sats must be positive." }, L, none)
  else if amount_sats > MAX_INVOICE_SATS then
    ({ success := false
       error := some "amount_sats exceeds maximum per invoice." }, L, none)
  else
    match createOutcome with
    | .error e =>
      ({ success := false, error := some ("BTCPay error: " ++ e) }, L,
       some amount_sats)
    | .ok inv =>
      let L1 := { L with pending_invoices := L.pending_invoices ++ [inv.id] }
      let L2 := L1.record_invoice_created inv.id amount_sats multiplier now
      ({ success := true
         invoice_id := some inv.id
         amount_sats := some amount_sats
         tier := some tier_name
         multiplier := some multiplier
         expected_credits := some (amount_sats * multiplier) }, L2,
       some amount_sats)

/-- Embeds `purchase_credits_tool` (credits.py 189-242). The caller-provided
`amount_sats` is a parameter of the Python function; the certificate's
`net_sats` is what reaches `_create_purchase_invoice`. Returns
(result, ledger', JTI store', invoice request sent to the provider). -/
def purchaseCredits (decodeOutcome : Except String DecodedClaims)
    (store : JtiStore) (nowEpoch : Int)
    (createOutcome : Except String CreatedInvoice) (L : UserLedger)
    (amount_sats : Int) (certificate : String) (authority_public_key : String)
    (tier_name : String) (multiplier : Int) (now : String) :
    PurchaseResult × UserLedger × JtiStore × Option Int :=
  if authority_public_key == "" then
    ({ success := false
       error := some "Operator misconfigured: authority_public_key is required." },
     L, store, none)
  else if certificate == "" then
    ({ success := false
       error := some "A valid Authority certificate is required." },
     L, store, none)
  else
    match verifyCertificate decodeOutcome none store nowEpoch with
    | (.error _, store') =>
      ({ success := false, error := some "Certificate rejected." }, L, store', none)
    | (.ok cert, store') =>
      let r := createPurchaseInvoice createOutcome L cert.net_sats tier_name
        multiplier now
      let res := if r.1.success
        then { r.1 with certificate_jti := some cert.jti } else r.1
      (res, r.2.1, store', r.2.2)

/-- Provider view of an invoice as `check_payment_tool` reads it. `amount` is
`int(float(invoice["amount"]))` — the decimal-string parse of the stdlib is
abstracted to its integer value. -/
structure ProviderInvoice where
  status : String := "Unknown"
  additionalStatus : String := ""
  amount : Int := 0
  deriving Repr, DecidableEq

/-- Result dict of `check_payment_tool` (human-readable `message` text
omitted; the branch taken is visible through the other fields). -/
structure CheckPaymentResult where
  success : Bool
  invoice_id : String := ""
  status : Option String := none
  additional_status : Option String := none
  credits_granted : Option Int := none
  multiplier : Option Int := none
  royalty_payout : Option RoyaltyOutcome := none
  balance_api_sats : Option Int := none
  error : Option String := none
  deriving Repr, DecidableEq

/-- Embeds `check_payment_tool` (credits.py 269-394). Tier lookup is abstracted to
`multiplier`; cache flushing is I/O and outside the model; `today`/`now`
stand for the wall-clock strings. Returns (result, ledger', payout request
sent to the provider — `none` when `create_payout` is never called). -/
def checkPayment (getOutcome : Except String ProviderInvoice)
    (payoutOutcome : Except String PayoutResponse) (L : UserLedger)
    (invoice_id : String) (multiplier : Int)
    (royalty_address : Option String) (royalty_percent : ℚ)
    (royalty_min_sats : Int) (today now : String) :
    CheckPaymentResult × UserLedger × Option Int :=
  match getOutcome with
  | .error e =>
    ({ success := false, error := some ("BTCPay error: " ++ e) }, L, none)
  | .ok inv =>
    let base : CheckPaymentResult :=
      { success := true
        invoice_id := invoice_id
        status := some inv.status
        additional_status :=
          if inv.additionalStatus == "" then none else some inv.additionalStatus }
    if inv.status == "New" ∨ inv.status == "Processing" then
      ({ base with balance_api_sats := some L.balance_api_sats }, L, none)
    else if inv.status == "Settled" then
      if invoice_id ∈ L.credited_invoices then
        ({ base with credits_granted := some 0
                     balance_api_sats := some L.balance_api_sats }, L, none)
      else
        let credited := inv.amount * multiplier
        let L1 := L.credit_deposit credited invoice_id today
        let L2 := L1.record_invoice_settled invoice_id credited now inv.status
        let royalty : Option RoyaltyOutcome × Option Int :=
          match royalty_address with
          | some addr =>
            attemptRoyaltyPayout payoutOutcome inv.amount addr royalty_percent
              royalty_min_sats
          | none => (none, none)
        ({ base with credits_granted := some credited
                     multiplier := some multiplier
                     royalty_payout := royalty.1
                     balance_api_sats := some L2.balance_api_sats }, L2, royalty.2)
    else if inv.status == "Expired" then
      let L1 := { L with pending_invoices :=
        if invoice_id ∈ L.pending_invoices then
          L.pending_invoices.erase invoice_id else L.pending_invoices }
      let L2 := L1.record_invoice_terminal invoice_id "Expired" inv.status
      ({ base with balance_api_sats := some L2.balance_api_sats }, L2, none)
    else if inv.status == "Invalid" then
      let L1 := { L with pending_invoices :=
        if invoice_id ∈ L.pending_invoices then
          L.pending_invoices.erase invoice_id else L.pending_invoices }
      let L2 := L1.record_invoice_terminal invoice_id "Invalid" inv.status
      ({ base with balance_api_sats := some L2.balance_api_sats }, L2, none)
    else
      ({ base with balance_api_sats := some L.balance_api_sats }, L, none)

/-- Advisory dict of `compute_low_balance_warning` (message text omitted). -/
structure LowBalanceWarning where
  balance_api_sats : Int
  threshold_api_sats : Int
  suggested_top_up_sats : Int
  deriving Repr, DecidableEq

/-- The Settled invoice records of a ledger, in insertion order. -/
def settledRecords (L : UserLedger) : List InvoiceRecord :=
  (L.invoices.map Prod.snd).filter (fun r => r.status == "Settled")

/-- Embeds `compute_low_balance_warning` (credits.py 654-697). Python `//` is floor
division (`Int.fdiv`). -/
def computeLowBalanceWarning (L : UserLedger) (seed_balance_sats : Int)
    (low_balance_floor : Int) : Option LowBalanceWarning :=
  let settled := settledRecords L
  let reference : Int :=
    match settled.getLast? with
    | some last => last.api_sats_credited
    | none =>
      if 0 < seed_balance_sats ∧ "seed_balance_v1" ∈ L.credited_invoices then
        seed_balance_sats
      else low_balance_floor
  let threshold := max (Int.fdiv reference 5) low_balance_floor
  if L.balance_api_sats ≥ threshold then none
  else
    let suggested0 : Int :=
      match settled.getLast? with
      | some last => if last.amount_sats ≤ 0 then 1000 else last.amount_sats
      | none => 1000
    some { balance_api_sats := L.balance_api_sats
           threshold_api_sats := threshold
           suggested_top_up_sats := min suggested0 MAX_INVOICE_SATS }

/-- The suggested top-up exactly as the spec sentence words it: "last
invoice's real sats, else 1000, clamped to MAX_INVOICE_SATS" — with no
provision for a non-positive recorded amount. Stated only to compare the
claim against `computeLowBalanceWarning`. -/
def specSuggestedTopUp (L : UserLedger) : Int :=
  match (settledRecords L).getLast? with
  | some last => min last.amount_sats MAX_INVOICE_SATS
  | none => min 1000 MAX_INVOICE_SATS

-- ---------------------------------------------------------------------------
-- Observation helpers and association-list lemmas
-- ---------------------------------------------------------------------------

/-- Value bound to key `k`, if any. -/
def lookupA {α : Type} (m : List (String × α)) (k : String) : Option α :=
  (m.find? (fun p => p.1 == k)).map (fun p => p.2)

/-- The usage counter a Python reader observes for tool `t`: the stored
entry, or a zero counter when absent (`ToolUsage.from_dict` defaults). -/
def usageIn (m : List (String × ToolUsage)) (t : String) : ToolUsage :=
  (lookupA m t).getD {}

/-- Today's usage counter for tool `t` in ledger `L`. -/
def UserLedger.dayUsage (L : UserLedger) (day t : String) : ToolUsage :=
  usageIn ((lookupA L.daily_log day).getD []) t

theorem lookupA_map_update {α : Type} (m : List (String × α)) (k : String)
    (f : α → α) :
    lookupA (m.map (fun p => if p.1 == k then (p.1, f p.2) else p)) k =
      (lookupA m k).map f := by
  induction m with
  | nil => rfl
  | cons a t ih =>
    obtain ⟨a1, a2⟩ := a
    by_cases hk : a1 = k
    · subst hk
      simp [lookupA, List.find?_cons]
    · have hb : (a1 == k) = false := beq_eq_false_iff_ne.mpr hk
      simp only [List.map_cons, hb, Bool.false_eq_true, if_false]
      simp only [lookupA, List.find?_cons, hb] at ih ⊢
      exact ih

theorem lookupA_map_update_ne {α : Type} (m : List (String × α)) (k : String)
    (f : α → α) {k' : String} (h : k' ≠ k) :
    lookupA (m.map (fun p => if p.1 == k then (p.1, f p.2) else p)) k' =
      lookupA m k' := by
  induction m with
  | nil => rfl
  | cons a t ih =>
    obtain ⟨a1, a2⟩ := a
    by_cases hk : a1 = k
    · subst hk
      have hb' : (a1 == k') = false := beq_eq_false_iff_ne.mpr (Ne.symm h)
      simp only [List.map_cons, beq_self_eq_true, if_true]
      simp only [lookupA, List.find?_cons, hb'] at ih ⊢
      exact ih
    · have hb : (a1 == k) = false := beq_eq_false_iff_ne.mpr hk
      simp only [List.map_cons, hb, Bool.false_eq_true, if_false]
      by_cases hk' : a1 = k'
      · subst hk'
        simp [lookupA, List.find?_cons]
      · have hb' : (a1 == k') = false := beq_eq_false_iff_ne.mpr hk'
        simp only [lookupA, List.find?_cons, hb'] at ih ⊢
        exact ih

theorem lookupA_append {α : Type} (m₁ m₂ : List (String × α)) (k : String) :
    lookupA (m₁ ++ m₂) k = ((lookupA m₁ k).or (lookupA m₂ k)) := by
  simp only [lookupA, List.find?_append]
  cases List.find? (fun p => p.1 == k) m₁ <;> simp

theorem lookupA_updateAssoc_self {α : Type} (m : List (String × α))
    (k : String) (d : α) (f : α → α) :
    lookupA (updateAssoc m k d f) k = some (f ((lookupA m k).getD d)) := by
  unfold updateAssoc
  by_cases h : (m.find? (fun p => p.1 == k)).isSome
  · rw [if_pos h, lookupA_map_update]
    obtain ⟨v, hv⟩ := Option.isSome_iff_exists.mp h
    have hl : lookupA m k = some v.2 := by simp [lookupA, hv]
    simp [hl]
  · rw [if_neg h, lookupA_append]
    have hl : lookupA m k = none := by
      simp [lookupA, Option.not_isSome_iff_eq_none.mp h]
    rw [hl]
    simp [lookupA, List.find?_cons]

theorem lookupA_updateAssoc_ne {α : Type} (m : List (String × α)) (k : String)
    (d : α) (f : α → α) {k' : String} (h : k' ≠ k) :
    lookupA (updateAssoc m k d f) k' = lookupA m k' := by
  unfold updateAssoc
  by_cases hs : (m.find? (fun p => p.1 == k)).isSome
  · rw [if_pos hs, lookupA_map_update_ne _ _ _ h]
  · rw [if_neg hs, lookupA_append]
    have hb : (k == k') = false := beq_eq_false_iff_ne.mpr (Ne.symm h)
    have h2 : lookupA [(k, f d)] k' = none := by
      simp [lookupA, List.find?_cons, hb]
    rw [h2]
    cases lookupA m k' <;> simp

theorem lookupA_modifyAssoc_self {α : Type} (m : List (String × α))
    (k : String) (f : α → α) :
    lookupA (modifyAssoc m k f) k = (lookupA m k).map f :=
  lookupA_map_update m k f

theorem lookupA_modifyAssoc_ne {α : Type} (m : List (String × α)) (k : String)
    (f : α → α) {k' : String} (h : k' ≠ k) :
    lookupA (modifyAssoc m k f) k' = lookupA m k' :=
  lookupA_map_update_ne m k f h

theorem lookupA_setAssoc_self {α : Type} (m : List (String × α)) (k : String)
    (v : α) : lookupA (setAssoc m k v) k = some v := by
  have : setAssoc m k v = updateAssoc m k v (fun _ => v) := rfl
  rw [this, lookupA_updateAssoc_self]

-- ---------------------------------------------------------------------------
-- C6 — debit
-- ---------------------------------------------------------------------------

/-- C6: for every ledger, tool and integer n, `debit(tool, n)` returns false
and leaves every field unchanged when `n < 0` or `balance_api_sats < n`;
otherwise it returns true, decrements the balance by n, increments
`total_consumed_api_sats` by n, and increments today's and the lifetime
per-tool counters for the tool by one call and n api_sats, leaving the other
fields unchanged. -/
theorem C6_debit_spec (L : UserLedger) (t : String) (n : Int) (today : String) :
    ((n < 0 ∨ L.balance_api_sats < n) → L.debit t n today = (false, L)) ∧
    (0 ≤ n → n ≤ L.balance_api_sats →
      (L.debit t n today).1 = true ∧
      (L.debit t n today).2.balance_api_sats = L.balance_api_sats - n ∧
      (L.debit t n today).2.total_consumed_api_sats
        = L.total_consumed_api_sats + n ∧
      (L.debit t n today).2.dayUsage today t
        = { calls := (L.dayUsage today t).calls + 1
            api_sats := (L.dayUsage today t).api_sats + n } ∧
      usageIn (L.debit t n today).2.history t
        = { calls := (usageIn L.history t).calls + 1
            api_sats := (usageIn L.history t).api_sats + n } ∧
      (L.debit t n today).2.total_deposited_api_sats
        = L.total_deposited_api_sats ∧
      (L.debit t n today).2.pending_invoices = L.pending_invoices ∧
      (L.debit t n today).2.credited_invoices = L.credited_invoices ∧
      (L.debit t n today).2.last_deposit_at = L.last_deposit_at ∧
      (L.debit t n today).2.invoices = L.invoices) := by
  constructor
  · intro h
    by_cases h1 : n < 0
    · simp [UserLedger.debit, h1]
    · have h2 : L.balance_api_sats < n := h.resolve_left h1
      simp [UserLedger.debit, h1, h2]
  · intro h0 hb
    have h1 : ¬ n < 0 := not_lt.mpr h0
    have h2 : ¬ L.balance_api_sats < n := not_lt.mpr hb
    refine ⟨by simp [UserLedger.debit, h1, h2], by simp [UserLedger.debit, h1, h2],
      by simp [UserLedger.debit, h1, h2], ?_, ?_,
      by simp [UserLedger.debit, h1, h2], by simp [UserLedger.debit, h1, h2],
      by simp [UserLedger.debit, h1, h2], by simp [UserLedger.debit, h1, h2],
      by simp [UserLedger.debit, h1, h2]⟩
    · simp [UserLedger.debit, h1, h2, UserLedger.dayUsage, usageIn,
        lookupA_updateAssoc_self]
    · simp [UserLedger.debit, h1, h2, usageIn, lookupA_updateAssoc_self]

/-- Concrete purchase of both branches of C6: a negative debit is refused
without change, and a debit of 3 from balance 10 succeeds. -/
theorem C6_debit_spec_witness :
    ({ balance_api_sats := 10 } : UserLedger).debit "search" (-1) "2026-01-01"
      = (false, { balance_api_sats := 10 }) ∧
    (({ balance_api_sats := 10 } : UserLedger).debit "search" 3 "2026-01-01").1
      = true ∧
    (({ balance_api_sats := 10 } : UserLedger).debit "search" 3
      "2026-01-01").2.balance_api_sats = 7 := by
  have hfail := (C6_debit_spec { balance_api_sats := 10 } "search" (-1)
    "2026-01-01").1 (Or.inl (by decide))
  have hok := (C6_debit_spec { balance_api_sats := 10 } "search" 3
    "2026-01-01").2 (by decide) (by decide)
  exact ⟨hfail, hok.1, by rw [hok.2.1]; decide⟩

-- ---------------------------------------------------------------------------
-- C7 — rollback_debit after a successful debit
-- ---------------------------------------------------------------------------

theorem toolUsage_ext (a b : ToolUsage) (h1 : a.calls = b.calls)
    (h2 : a.api_sats = b.api_sats) : a = b := by
  cases a; cases b; simp_all

/-- C7: a successful `debit(t, n)` followed by `rollback_debit(t, n)`
restores the balance and `total_consumed_api_sats`, and every per-tool daily
and lifetime counter reads the same as before (the floor at 0 in the
rollback is inert because a successful debit leaves the counters at least at
1 call / n api_sats; the non-negativity hypotheses hold for every ledger
built by the ledger's own operations). -/
theorem C7_rollback_debit_restores (L : UserLedger) (t : String) (n : Int)
    (today : String)
    (hsucc : (L.debit t n today).1 = true)
    (hc : 0 ≤ (L.dayUsage today t).calls)
    (hs : 0 ≤ (L.dayUsage today t).api_sats)
    (hhc : 0 ≤ (usageIn L.history t).calls)
    (hhs : 0 ≤ (usageIn L.history t).api_sats) :
    ((L.debit t n today).2.rollback_debit t n today).balance_api_sats
        = L.balance_api_sats ∧
    ((L.debit t n today).2.rollback_debit t n today).total_consumed_api_sats
        = L.total_consumed_api_sats ∧
    (∀ d' t', ((L.debit t n today).2.rollback_debit t n today).dayUsage d' t'
        = L.dayUsage d' t') ∧
    (∀ t', usageIn ((L.debit t n today).2.rollback_debit t n today).history t'
        = usageIn L.history t') := by
  by_cases h1 : n < 0
  · simp [UserLedger.debit, h1] at hsucc
  by_cases h2 : L.balance_api_sats < n
  · simp [UserLedger.debit, h1, h2] at hsucc
  simp only [UserLedger.dayUsage, usageIn] at hc hs hhc hhs
  refine ⟨?_, ?_, ?_, ?_⟩
  · simp only [UserLedger.debit, UserLedger.rollback_debit, h1, h2, if_false]
    omega
  · simp only [UserLedger.debit, UserLedger.rollback_debit, h1, h2, if_false]
    omega
  · intro d' t'
    by_cases hd : d' = today
    · subst hd
      by_cases ht : t' = t
      · subst ht
        simp only [UserLedger.debit, UserLedger.rollback_debit, h1, h2,
          if_false, UserLedger.dayUsage, usageIn,
          lookupA_modifyAssoc_self, lookupA_updateAssoc_self,
          Option.map_some', Option.getD_some]
        refine toolUsage_ext _ _ ?_ ?_ <;> simp <;> omega
      · simp only [UserLedger.debit, UserLedger.rollback_debit, h1, h2,
          if_false, UserLedger.dayUsage, usageIn,
          lookupA_modifyAssoc_self, lookupA_updateAssoc_self,
          Option.map_some', Option.getD_some]
        rw [lookupA_modifyAssoc_ne _ _ _ ht, lookupA_updateAssoc_ne _ _ _ _ ht]
    · simp only [UserLedger.debit, UserLedger.rollback_debit, h1, h2,
        if_false, UserLedger.dayUsage]
      rw [lookupA_modifyAssoc_ne _ _ _ hd, lookupA_updateAssoc_ne _ _ _ _ hd]
  · intro t'
    by_cases ht : t' = t
    · subst ht
      simp only [UserLedger.debit, UserLedger.rollback_debit, h1, h2,
        if_false, usageIn, lookupA_modifyAssoc_self, lookupA_updateAssoc_self,
        Option.map_some', Option.getD_some]
      refine toolUsage_ext _ _ ?_ ?_ <;> simp <;> omega
    · simp only [UserLedger.debit, UserLedger.rollback_debit, h1, h2,
        if_false, usageIn]
      rw [lookupA_modifyAssoc_ne _ _ _ ht, lookupA_updateAssoc_ne _ _ _ _ ht]

/-- Concrete instance of C7: debit 2 then rollback on a balance-5 ledger
restores balance 5 and zero consumption. -/
theorem C7_rollback_debit_restores_witness :
    ((({ balance_api_sats := 5 } : UserLedger).debit "search" 2
        "2026-01-01").2.rollback_debit "search" 2 "2026-01-01").balance_api_sats
      = 5 ∧
    ((({ balance_api_sats := 5 } : UserLedger).debit "search" 2
        "2026-01-01").2.rollback_debit "search" 2
        "2026-01-01").total_consumed_api_sats = 0 := by
  have h := C7_rollback_debit_restores { balance_api_sats := 5 } "search" 2
    "2026-01-01" (by decide) (by decide) (by decide) (by decide) (by decide)
  exact ⟨by rw [h.1], by rw [h.2.1]⟩

-- ---------------------------------------------------------------------------
-- C8 — JSON round trip and legacy-key migration
-- ---------------------------------------------------------------------------

theorem toolUsage_round (u : ToolUsage) : ToolUsage.from_dict u.to_dict = u := rfl

theorem toolUsage_legacy_round (u : ToolUsage) :
    ToolUsage.from_dict (legacyToolUsageDict u) = u := rfl

theorem invoiceRecord_round (r : InvoiceRecord) :
    InvoiceRecord.from_dict r.to_dict = r := by
  obtain ⟨iid, am, ac, mu, st, ca, sa, bs⟩ := r
  cases sa <;> cases bs <;> rfl

theorem strList_round (l : List String) :
    l.filterMap (decStr ∘ Json.str) = l := by
  induction l with
  | nil => rfl
  | cons a t ih => simp [Function.comp, decStr, ih]

theorem toolMap_round (m : List (String × ToolUsage)) :
    m.filterMap (decToolEntry ∘ encToolEntry) = m := by
  induction m with
  | nil => rfl
  | cons a t ih =>
    simp [Function.comp, encToolEntry, decToolEntry, ih, toolUsage_round]

theorem legacyToolMap_round (m : List (String × ToolUsage)) :
    m.filterMap (decToolEntry ∘ encToolEntryLegacy) = m := by
  induction m with
  | nil => rfl
  | cons a t ih =>
    simp [Function.comp, encToolEntryLegacy, decToolEntry, ih,
      toolUsage_legacy_round]

theorem dailyMap_round (D : List (String × List (String × ToolUsage))) :
    D.filterMap (decDayEntry ∘ encDayEntry) = D := by
  induction D with
  | nil => rfl
  | cons a t ih =>
    simp [Function.comp, encDayEntry, decDayEntry, toolMap_round, ih]

theorem legacyDailyMap_round (D : List (String × List (String × ToolUsage))) :
    D.filterMap (decDayEntry ∘ encDayEntryLegacy) = D := by
  induction D with
  | nil => rfl
  | cons a t ih =>
    simp [Function.comp, encDayEntryLegacy, decDayEntry, legacyToolMap_round,
      ih]

theorem invoiceMap_round (m : List (String × InvoiceRecord)) :
    m.filterMap (decInvoiceEntry ∘ encInvoiceEntry) = m := by
  induction m with
  | nil => rfl
  | cons a t ih =>
    simp [Function.comp, encInvoiceEntry, decInvoiceEntry, ih,
      invoiceRecord_round]

/-- C8: decoding the encoding of any ledger gives back the ledger, and a blob
written with the legacy schema-v1 key names (`balance_sats`,
`total_deposited_sats`, `total_consumed_sats`, `sats` in usage counters)
decodes to the same ledger as the `api_sats`-keyed blob. -/
theorem C8_ledger_json_round_trip (L : UserLedger) :
    UserLedger.from_json (UserLedger.to_json L) = L ∧
    UserLedger.from_json (legacy_to_json L) = L := by
  obtain ⟨b, td, tc, pend, cred, ld, dl, hist, inv⟩ := L
  constructor
  · cases ld <;>
      simp [UserLedger.from_json, UserLedger.to_json, jlookup, List.find?,
        asInt, asOptStr, optStr, UserLedger.getIntMigrated,
        strList_round, dailyMap_round, toolMap_round, invoiceMap_round]
  · cases ld <;>
      simp [UserLedger.from_json, legacy_to_json, jlookup, List.find?,
        asInt, asOptStr, optStr, UserLedger.getIntMigrated,
        strList_round, legacyDailyMap_round, legacyToolMap_round,
        invoiceMap_round]

-- ---------------------------------------------------------------------------
-- C9 — sats_to_btc_string
-- ---------------------------------------------------------------------------

/-- C9: `sats_to_btc_string` rejects negative sats and sats above the
ceiling (default 10⁸, with exactly 10⁸ accepted), and otherwise renders the
exact 8-decimal-place BTC string `floor_div(sats, 10⁸).<8-digit fractional>`;
in particular 1 ↦ "0.00000001" and 10⁸ ↦ "1.00000000". -/
theorem C9_sats_to_btc_string_spec (sats : Int) :
    (sats < 0 → sats_to_btc_string sats SATS_CONVERSION_MAX_DEFAULT
      = .error "sats must be non-negative") ∧
    (SATS_CONVERSION_MAX_DEFAULT < sats →
      sats_to_btc_string sats SATS_CONVERSION_MAX_DEFAULT
        = .error "sats exceeds ceiling") ∧
    (0 ≤ sats → sats ≤ SATS_CONVERSION_MAX_DEFAULT →
      sats_to_btc_string sats SATS_CONVERSION_MAX_DEFAULT
        = .ok (toString (sats.toNat / 100000000) ++ "."
            ++ pad8 (sats.toNat % 100000000))) ∧
    sats_to_btc_string 1 SATS_CONVERSION_MAX_DEFAULT = .ok "0.00000001" ∧
    sats_to_btc_string 100000000 SATS_CONVERSION_MAX_DEFAULT
      = .ok "1.00000000" := by
  refine ⟨?_, ?_, ?_, rfl, rfl⟩
  · intro h
    simp [sats_to_btc_string, h]
  · intro h
    have h0 : ¬ sats < 0 := by
      simp only [SATS_CONVERSION_MAX_DEFAULT] at h
      omega
    simp [sats_to_btc_string, h0, h]
  · intro h0 h1
    have h0' : ¬ sats < 0 := not_lt.mpr h0
    have h1' : ¬ sats > SATS_CONVERSION_MAX_DEFAULT := not_lt.mpr h1
    simp [sats_to_btc_string, btcDecimalString, h0', h1']

/-- Concrete instances of C9's three guarded branches. -/
theorem C9_sats_to_btc_string_spec_witness :
    sats_to_btc_string (-5) SATS_CONVERSION_MAX_DEFAULT
      = .error "sats must be non-negative" ∧
    sats_to_btc_string 100000001 SATS_CONVERSION_MAX_DEFAULT
      = .error "sats exceeds ceiling" ∧
    sats_to_btc_string 7 SATS_CONVERSION_MAX_DEFAULT
      = .ok (toString ((7 : Int).toNat / 100000000) ++ "."
          ++ pad8 ((7 : Int).toNat % 100000000)) := by
  exact ⟨(C9_sats_to_btc_string_spec (-5)).1 (by decide),
    (C9_sats_to_btc_string_spec 100000001).2.1 (by decide),
    (C9_sats_to_btc_string_spec 7).2.2.1 (by decide) (by decide)⟩

-- ---------------------------------------------------------------------------
-- C5 — _attempt_royalty_payout
-- ---------------------------------------------------------------------------

/-- C5: the royalty is the floor of `amount × rate` (for the non-negative
inputs of interest, where Python's truncating `int()` equals the floor);
below the minimum nothing is returned and the provider is not called; above
`ROYALTY_PAYOUT_MAX_SATS` an error dict is returned without calling the
provider; exactly `ROYALTY_PAYOUT_MAX_SATS` proceeds to the provider; on a
provider error an error dict is returned (the function is total — it never
raises). -/
theorem C5_royalty_payout_spec (po : Except String PayoutResponse)
    (amount : Int) (addr : String) (rate : ℚ) (minSats : Int) :
    (0 ≤ amount → 0 ≤ rate →
      pyTrunc ((amount : ℚ) * rate) = ⌊(amount : ℚ) * rate⌋) ∧
    (pyTrunc ((amount : ℚ) * rate) < minSats →
      attemptRoyaltyPayout po amount addr rate minSats = (none, none)) ∧
    (minSats ≤ pyTrunc ((amount : ℚ) * rate) →
      ROYALTY_PAYOUT_MAX_SATS < pyTrunc ((amount : ℚ) * rate) →
      attemptRoyaltyPayout po amount addr rate minSats
        = (some (.refused (pyTrunc ((amount : ℚ) * rate)) addr), none)) ∧
    (minSats ≤ pyTrunc ((amount : ℚ) * rate) →
      pyTrunc ((amount : ℚ) * rate) ≤ ROYALTY_PAYOUT_MAX_SATS →
      (attemptRoyaltyPayout po amount addr rate minSats).2
        = some (pyTrunc ((amount : ℚ) * rate))) ∧
    (∀ e, po = .error e →
      minSats ≤ pyTrunc ((amount : ℚ) * rate) →
      pyTrunc ((amount : ℚ) * rate) ≤ ROYALTY_PAYOUT_MAX_SATS →
      attemptRoyaltyPayout po amount addr rate minSats
        = (some (.failed (pyTrunc ((amount : ℚ) * rate)) addr e),
           some (pyTrunc ((amount : ℚ) * rate)))) := by
  refine ⟨?_, ?_, ?_, ?_, ?_⟩
  · intro ha hr
    have hq : 0 ≤ (amount : ℚ) * rate :=
      mul_nonneg (by exact_mod_cast ha) hr
    unfold pyTrunc
    rw [Rat.floor_def]
    exact Int.tdiv_eq_ediv (Rat.num_nonneg.mpr hq) (by positivity)
  · intro h
    simp [attemptRoyaltyPayout, h]
  · intro h1 h2
    have h1' : ¬ pyTrunc ((amount : ℚ) * rate) < minSats := not_lt.mpr h1
    simp [attemptRoyaltyPayout, h1', h2]
  · intro h1 h2
    have h1' : ¬ pyTrunc ((amount : ℚ) * rate) < minSats := not_lt.mpr h1
    have h2' : ¬ pyTrunc ((amount : ℚ) * rate) > ROYALTY_PAYOUT_MAX_SATS :=
      not_lt.mpr h2
    cases po <;> simp [attemptRoyaltyPayout, h1', h2']
  · intro e he h1 h2
    subst he
    have h1' : ¬ pyTrunc ((amount : ℚ) * rate) < minSats := not_lt.mpr h1
    have h2' : ¬ pyTrunc ((amount : ℚ) * rate) > ROYALTY_PAYOUT_MAX_SATS :=
      not_lt.mpr h2
    simp [attemptRoyaltyPayout, h1', h2']

/-- Concrete instances of C5: 2% of 100 sats (2, below minimum 10) is
silent; 50% of 1,000,000 (500,000, over the ceiling) is refused without a
provider call; 2% of 5,000,000 is exactly 100,000 and proceeds to the
provider; a provider failure on 2% of 5,000 (100 sats) yields an error
dict. -/
theorem C5_royalty_payout_spec_witness :
    attemptRoyaltyPayout (.ok {}) 100 "org@ln.tld" (1 / 50) 10
      = (none, none) ∧
    attemptRoyaltyPayout (.ok {}) 1000000 "org@ln.tld" (1 / 2) 10
      = (some (.refused 500000 "org@ln.tld"), none) ∧
    (attemptRoyaltyPayout (.ok {}) 5000000 "org@ln.tld" (1 / 50) 10).2
      = some 100000 ∧
    attemptRoyaltyPayout (.error "boom") 5000 "org@ln.tld" (1 / 50) 10
      = (some (.failed 100 "org@ln.tld" "boom"), some 100) := by
  have e1 : pyTrunc (((100 : Int) : ℚ) * (1 / 50)) = 2 := by
    have h : (((100 : Int) : ℚ) * (1 / 50)) = 2 := by norm_num
    rw [h]; norm_num [pyTrunc]
  have e2 : pyTrunc (((1000000 : Int) : ℚ) * (1 / 2)) = 500000 := by
    have h : (((1000000 : Int) : ℚ) * (1 / 2)) = 500000 := by norm_num
    rw [h]; norm_num [pyTrunc]
  have e3 : pyTrunc (((5000000 : Int) : ℚ) * (1 / 50)) = 100000 := by
    have h : (((5000000 : Int) : ℚ) * (1 / 50)) = 100000 := by norm_num
    rw [h]; norm_num [pyTrunc]
  have e4 : pyTrunc (((5000 : Int) : ℚ) * (1 / 50)) = 100 := by
    have h : (((5000 : Int) : ℚ) * (1 / 50)) = 100 := by norm_num
    rw [h]; norm_num [pyTrunc]
  refine ⟨(C5_royalty_payout_spec (.ok {}) 100 "org@ln.tld" (1 / 50) 10).2.1
      (by rw [e1]; decide), ?_, ?_, ?_⟩
  · have h := (C5_royalty_payout_spec (.ok {}) 1000000 "org@ln.tld" (1 / 2)
      10).2.2.1 (by rw [e2]; decide) (by rw [e2]; decide)
    rw [h, e2]
  · have h := (C5_royalty_payout_spec (.ok {}) 5000000 "org@ln.tld" (1 / 50)
      10).2.2.2.1 (by rw [e3]; decide) (by rw [e3]; decide)
    rw [h, e3]
  · have h := (C5_royalty_payout_spec (.error "boom") 5000 "org@ln.tld"
      (1 / 50) 10).2.2.2.2 "boom" rfl (by rw [e4]; decide) (by rw [e4]; decide)
    rw [h, e4]

-- ---------------------------------------------------------------------------
-- C3 — single-use certificates (anti-replay)
-- ---------------------------------------------------------------------------

/-- C3: a certificate with a fresh jti verifies successfully exactly once:
the first verification returns the claims and records `(jti, exp)` in the
store; any later verification of a certificate bearing the same jti (while
the entry has not expired) fails with the replay error; and the store's
check-and-insert — serialized by the lock — admits exactly one of two
back-to-back insertions of the same jti. -/
theorem C3_certificate_single_use (c₁ c₂ : DecodedClaims) (store : JtiStore)
    (now now₂ : Int) (j : String) (e e₂ : Int) (p : String)
    (h1j : c₁.jti = some j) (hjne : j ≠ "")
    (h1e : c₁.exp = some e) (hene : e ≠ 0)
    (h1p : c₁.dpyc_protocol = some p) (hp : p ∈ UNDERSTOOD_PROTOCOLS)
    (hfresh : ((store.filter (fun q => q.2 > now)).find?
        (fun q => q.1 == j)) = none)
    (h2j : c₂.jti = some j) (h2e : c₂.exp = some e₂) (he2 : e₂ ≠ 0)
    (hsurvive : now₂ < e) :
    (verifyCertificate (.ok c₁) none store now).1 =
      .ok { operator_id := c₁.sub, amount_sats := c₁.amount_sats,
            tax_paid_sats := c₁.tax_paid_sats, net_sats := c₁.net_sats,
            jti := j, dpyc_protocol := p } ∧
    (j, e) ∈ (verifyCertificate (.ok c₁) none store now).2 ∧
    (verifyCertificate (.ok c₂) none
        (verifyCertificate (.ok c₁) none store now).2 now₂).1
      = .error (.replay j) ∧
    (checkAndRecord store j e now).1 = true ∧
    (checkAndRecord (checkAndRecord store j e now).2 j e₂ now₂).1 = false := by
  have hjb : (j == "") = false := beq_eq_false_iff_ne.mpr hjne
  have hpe : p ≠ "" := by
    intro h
    rw [h] at hp
    simp [UNDERSTOOD_PROTOCOLS] at hp
  have hpb : (p == "") = false := beq_eq_false_iff_ne.mpr hpe
  have hcar1 : checkAndRecord store j e now
      = (true, store.filter (fun q => q.2 > now) ++ [(j, e)]) := by
    simp [checkAndRecord, hfresh]
  have hmem : (j, e) ∈ store.filter (fun q => q.2 > now) ++ [(j, e)] :=
    List.mem_append_right _ (List.mem_singleton.mpr rfl)
  have hcar2 : (checkAndRecord (store.filter (fun q => q.2 > now) ++ [(j, e)])
      j e₂ now₂).1 = false := by
    have hfind : (((store.filter (fun q => q.2 > now) ++ [(j, e)]).filter
        (fun q => q.2 > now₂)).find? (fun q => q.1 == j)).isSome := by
      rw [List.find?_isSome]
      refine ⟨(j, e), List.mem_filter.mpr ⟨hmem, by simpa using hsurvive⟩,
        by simp⟩
    simp only [checkAndRecord]
    rw [if_pos hfind]
  have hv1 : verifyCertificate (.ok c₁) none store now
      = (.ok { operator_id := c₁.sub, amount_sats := c₁.amount_sats,
               tax_paid_sats := c₁.tax_paid_sats, net_sats := c₁.net_sats,
               jti := j, dpyc_protocol := p },
         store.filter (fun q => q.2 > now) ++ [(j, e)]) := by
    simp [verifyCertificate, h1j, hjb, h1e, hene, h1p, hp, hpb, hcar1]
  refine ⟨by rw [hv1], by rw [hv1]; exact hmem, ?_, by rw [hcar1], ?_⟩
  · rw [hv1]
    have he2b : ¬ e₂ = 0 := he2
    simp only [verifyCertificate, h2j, hjb, h2e]
    rw [if_neg (by simpa using hjne)]
    rw [if_neg (by simpa using he2)]
    have : (checkAndRecord (store.filter (fun q => q.2 > now) ++ [(j, e)])
        j e₂ now₂).1 = false := hcar2
    simp [this]
  · rw [hcar1]
    exact hcar2

/-- A concrete well-formed decoded certificate payload with jti "j1". -/
def c3Claims : DecodedClaims :=
  { jti := some "j1"
    exp := some 100
    dpyc_protocol := some "dpyp-01-base-certificate" }

/-- Concrete instance of C3: jti "j1" verifies once against an empty store
and is rejected as a replay the second time. -/
theorem C3_certificate_single_use_witness :
    (verifyCertificate (.ok c3Claims) none [] 0).1
      = .ok { operator_id := "", amount_sats := 0, tax_paid_sats := 0,
              net_sats := 0, jti := "j1",
              dpyc_protocol := "dpyp-01-base-certificate" } ∧
    (verifyCertificate (.ok c3Claims) none
        (verifyCertificate (.ok c3Claims) none [] 0).2 50).1
      = .error (.replay "j1") := by
  have h := C3_certificate_single_use c3Claims c3Claims
    [] 0 50 "j1" 100 100 "dpyp-01-base-certificate"
    rfl (by decide) rfl (by decide) rfl (by decide)
    rfl rfl rfl (by decide) (by decide)
  exact ⟨h.1, h.2.2.1⟩

-- ---------------------------------------------------------------------------
-- C10 — the jti is consumed before the protocol check
-- ---------------------------------------------------------------------------

/-- C10 (implicit): `verify_certificate` records the jti in the single-use
store before the protocol check, so a certificate with valid signature, jti
and exp but a missing or not-understood `dpyc_protocol` claim is rejected
AND still consumes its token id: `(jti, exp)` lands in the store and any
later verification of the same jti fails as a replay instead of being
re-evaluated. -/
theorem C10_protocol_reject_consumes_jti (c₁ c₂ : DecodedClaims)
    (store : JtiStore) (now now₂ : Int) (j : String) (e e₂ : Int)
    (h1j : c₁.jti = some j) (hjne : j ≠ "")
    (h1e : c₁.exp = some e) (hene : e ≠ 0)
    (hbad : c₁.dpyc_protocol = none ∨
      ∃ pr, c₁.dpyc_protocol = some pr ∧ pr ∉ UNDERSTOOD_PROTOCOLS)
    (hfresh : ((store.filter (fun q => q.2 > now)).find?
        (fun q => q.1 == j)) = none)
    (h2j : c₂.jti = some j) (h2e : c₂.exp = some e₂) (he2 : e₂ ≠ 0)
    (hsurvive : now₂ < e) :
    ((verifyCertificate (.ok c₁) none store now).1
        = .error .missingProtocol ∨
      ∃ pr, (verifyCertificate (.ok c₁) none store now).1
        = .error (.unsupportedProtocol pr)) ∧
    (∀ out, (verifyCertificate (.ok c₁) none store now).1 ≠ .ok out) ∧
    (j, e) ∈ (verifyCertificate (.ok c₁) none store now).2 ∧
    (verifyCertificate (.ok c₂) none
        (verifyCertificate (.ok c₁) none store now).2 now₂).1
      = .error (.replay j) := by
  have hjb : (j == "") = false := beq_eq_false_iff_ne.mpr hjne
  have hcar1 : checkAndRecord store j e now
      = (true, store.filter (fun q => q.2 > now) ++ [(j, e)]) := by
    simp [checkAndRecord, hfresh]
  have hmem : (j, e) ∈ store.filter (fun q => q.2 > now) ++ [(j, e)] :=
    List.mem_append_right _ (List.mem_singleton.mpr rfl)
  have hcar2 : (checkAndRecord (store.filter (fun q => q.2 > now) ++ [(j, e)])
      j e₂ now₂).1 = false := by
    have hfind : (((store.filter (fun q => q.2 > now) ++ [(j, e)]).filter
        (fun q => q.2 > now₂)).find? (fun q => q.1 == j)).isSome := by
      rw [List.find?_isSome]
      refine ⟨(j, e), List.mem_filter.mpr ⟨hmem, by simpa using hsurvive⟩,
        by simp⟩
    simp only [checkAndRecord]
    rw [if_pos hfind]
  have hv : ∃ err, (err = CertErr.missingProtocol ∨
      ∃ pr, err = CertErr.unsupportedProtocol pr) ∧
      verifyCertificate (.ok c₁) none store now
        = (.error err, store.filter (fun q => q.2 > now) ++ [(j, e)]) := by
    rcases hbad with hnone | ⟨pr, hpr, hnotin⟩
    · exact ⟨.missingProtocol, Or.inl rfl, by
        simp [verifyCertificate, h1j, hjb, h1e, hene, hcar1, hnone]⟩
    · by_cases hpe : pr = ""
      · refine ⟨.missingProtocol, Or.inl rfl, ?_⟩
        subst hpe
        simp [verifyCertificate, h1j, hjb, h1e, hene, hcar1, hpr]
      · have hpb : (pr == "") = false := beq_eq_false_iff_ne.mpr hpe
        exact ⟨.unsupportedProtocol pr, Or.inr ⟨pr, rfl⟩, by
          simp [verifyCertificate, h1j, hjb, h1e, hene, hcar1, hpr, hpb,
            hnotin]⟩
  obtain ⟨err, herr, hv⟩ := hv
  refine ⟨?_, ?_, ?_, ?_⟩
  · rcases herr with h | ⟨pr, h⟩
    · exact Or.inl (by rw [hv, h])
    · exact Or.inr ⟨pr, by rw [hv, h]⟩
  · intro out
    rw [hv]
    simp
  · rw [hv]
    exact hmem
  · rw [hv]
    simp only [verifyCertificate, h2j, hjb, h2e]
    rw [if_neg (by simpa using hjne)]
    rw [if_neg (by simpa using he2)]
    simp [hcar2]

/-- A decoded payload with valid jti/exp but no `dpyc_protocol` claim. -/
def c10Claims : DecodedClaims :=
  { jti := some "j2", exp := some 100 }

/-- The same jti presented later with a valid protocol claim. -/
def c10ClaimsRetry : DecodedClaims :=
  { jti := some "j2"
    exp := some 100
    dpyc_protocol := some "dpyp-01-base-certificate" }

/-- Concrete instance of C10: a protocol-less certificate is rejected, its
jti "j2" is recorded anyway, and a later certificate with the same jti is
rejected as a replay. -/
theorem C10_protocol_reject_consumes_jti_witness :
    (verifyCertificate (.ok c10Claims) none [] 0).1
      = .error .missingProtocol ∧
    ("j2", (100 : Int)) ∈ (verifyCertificate (.ok c10Claims) none [] 0).2 ∧
    (verifyCertificate (.ok c10ClaimsRetry) none
        (verifyCertificate (.ok c10Claims) none [] 0).2 50).1
      = .error (.replay "j2") := by
  have h := C10_protocol_reject_consumes_jti c10Claims c10ClaimsRetry
    [] 0 50 "j2" 100 100
    rfl (by decide) rfl (by decide) (Or.inl rfl) rfl rfl rfl (by decide)
    (by decide)
  refine ⟨?_, h.2.2.1, h.2.2.2⟩
  rcases h.1 with h1 | ⟨pr, h1⟩
  · exact h1
  · have hev : (verifyCertificate (.ok c10Claims) none [] 0).1
        = Except.error CertErr.missingProtocol := rfl
    rw [hev] at h1
    exact absurd h1 (by simp)

-- ---------------------------------------------------------------------------
-- C1 — purchase_credits
-- ---------------------------------------------------------------------------

/-- C1: `purchase_credits` fails without creating any provider invoice when
the Authority public key is missing or the certificate token is empty; the
caller-provided `amount_sats` is ignored entirely; and after a successful
certificate verification the invoice amount is the certificate's
`net_sats` — rejected (success=false, no provider call) when `net_sats ≤ 0`
or `net_sats > MAX_INVOICE_SATS`, and otherwise sent to the provider as-is
(so exactly `MAX_INVOICE_SATS` is accepted), with the created invoice
recorded at that amount. -/
theorem C1_purchase_credits_spec (d : Except String DecodedClaims)
    (store : JtiStore) (nowEpoch : Int) (co : Except String CreatedInvoice)
    (L : UserLedger) (a : Int) (cert pk tn : String) (m : Int)
    (now : String) :
    (pk = "" →
      (purchaseCredits d store nowEpoch co L a cert pk tn m now).1.success
          = false ∧
      (purchaseCredits d store nowEpoch co L a cert pk tn m now).2.1 = L ∧
      (purchaseCredits d store nowEpoch co L a cert pk tn m now).2.2.2
          = none) ∧
    (cert = "" →
      (purchaseCredits d store nowEpoch co L a cert pk tn m now).1.success
          = false ∧
      (purchaseCredits d store nowEpoch co L a cert pk tn m now).2.1 = L ∧
      (purchaseCredits d store nowEpoch co L a cert pk tn m now).2.2.2
          = none) ∧
    (∀ a', purchaseCredits d store nowEpoch co L a cert pk tn m now
        = purchaseCredits d store nowEpoch co L a' cert pk tn m now) ∧
    (∀ out store', pk ≠ "" → cert ≠ "" →
      verifyCertificate d none store nowEpoch = (.ok out, store') →
      ((out.net_sats ≤ 0 ∨ MAX_INVOICE_SATS < out.net_sats) →
        (purchaseCredits d store nowEpoch co L a cert pk tn m now).1.success
            = false ∧
        (purchaseCredits d store nowEpoch co L a cert pk tn m now).2.1 = L ∧
        (purchaseCredits d store nowEpoch co L a cert pk tn m now).2.2.2
            = none) ∧
      (0 < out.net_sats → out.net_sats ≤ MAX_INVOICE_SATS →
        (purchaseCredits d store nowEpoch co L a cert pk tn m now).2.2.2
            = some out.net_sats ∧
        (∀ inv, co = .ok inv →
          (purchaseCredits d store nowEpoch co L a cert pk tn m
              now).1.success = true ∧
          (purchaseCredits d store nowEpoch co L a cert pk tn m
              now).1.amount_sats = some out.net_sats ∧
          lookupA (purchaseCredits d store nowEpoch co L a cert pk tn m
              now).2.1.invoices inv.id
            = some { invoice_id := inv.id, amount_sats := out.net_sats,
                     multiplier := m, status := "Pending", created_at := now,
                     btcpay_status := some "New" }))) := by
  refine ⟨?_, ?_, ?_, ?_⟩
  · intro h
    subst h
    simp [purchaseCredits]
  · intro h
    subst h
    by_cases hpk : pk = ""
    · subst hpk
      simp [purchaseCredits]
    · have hb : (pk == "") = false := beq_eq_false_iff_ne.mpr hpk
      simp [purchaseCredits, hb]
  · intro a'
    rfl
  · intro out store' hpk hcert hver
    have hpkb : (pk == "") = false := beq_eq_false_iff_ne.mpr hpk
    have hcertb : (cert == "") = false := beq_eq_false_iff_ne.mpr hcert
    constructor
    · intro hbad
      by_cases hle : out.net_sats ≤ 0
      · simp [purchaseCredits, hpkb, hcertb, hver, createPurchaseInvoice, hle]
      · have hgt : MAX_INVOICE_SATS < out.net_sats := hbad.resolve_left hle
        simp [purchaseCredits, hpkb, hcertb, hver, createPurchaseInvoice,
          hle, hgt]
    · intro hpos hmax
      have hle : ¬ out.net_sats ≤ 0 := not_le.mpr hpos
      have hgt : ¬ out.net_sats > MAX_INVOICE_SATS := not_lt.mpr hmax
      constructor
      · cases co <;>
          simp [purchaseCredits, hpkb, hcertb, hver, createPurchaseInvoice,
            hle, hgt]
      · intro inv hco
        subst hco
        simp [purchaseCredits, hpkb, hcertb, hver, createPurchaseInvoice,
          hle, hgt, UserLedger.record_invoice_created, lookupA_setAssoc_self]

/-- A concrete certified purchase for exactly `MAX_INVOICE_SATS`. -/
def c1Claims : DecodedClaims :=
  { net_sats := 1000000
    jti := some "c1j"
    exp := some 100
    dpyc_protocol := some "dpyp-01-base-certificate" }

/-- The claims dict `verify_certificate` returns for `c1Claims`. -/
def c1CertOut : CertOutput :=
  { operator_id := ""
    amount_sats := 0
    tax_paid_sats := 0
    net_sats := 1000000
    jti := "c1j"
    dpyc_protocol := "dpyp-01-base-certificate" }

/-- Concrete instance of C1: with no Authority key the purchase fails with
no provider call; with a valid certificate for exactly 1,000,000 sats the
purchase succeeds, the invoice is for 1,000,000 sats, and the caller-provided
amount (5) is ignored. -/
theorem C1_purchase_credits_spec_witness :
    (purchaseCredits (.ok c1Claims) [] 0 (.ok { id := "invX" }) {} 5 "token"
        "" "default" 1 "T").1.success = false ∧
    (purchaseCredits (.ok c1Claims) [] 0 (.ok { id := "invX" }) {} 5 "token"
        "PK" "default" 1 "T").1.success = true ∧
    (purchaseCredits (.ok c1Claims) [] 0 (.ok { id := "invX" }) {} 5 "token"
        "PK" "default" 1 "T").1.amount_sats = some 1000000 ∧
    (purchaseCredits (.ok c1Claims) [] 0 (.ok { id := "invX" }) {} 5 "token"
        "PK" "default" 1 "T").2.2.2 = some 1000000 := by
  have hempty := (C1_purchase_credits_spec (.ok c1Claims) [] 0
    (.ok { id := "invX" }) {} 5 "token" "" "default" 1 "T").1 rfl
  have h4 := (C1_purchase_credits_spec (.ok c1Claims) [] 0
    (.ok { id := "invX" }) {} 5 "token" "PK" "default" 1 "T").2.2.2
    c1CertOut [("c1j", 100)] (by decide) (by decide) rfl
  have hok := h4.2 (by decide) (by decide)
  have hsucc := hok.2 { id := "invX" } rfl
  exact ⟨hempty.1, hsucc.1, hsucc.2.1, hok.1⟩

-- ---------------------------------------------------------------------------
-- C2 — check_payment idempotency on already-credited Settled invoices
-- ---------------------------------------------------------------------------

/-- C2: when the provider reports Settled for an invoice id already present
in `credited_invoices`, `check_payment` changes no field of the ledger,
reports `credits_granted = 0`, and sends no payout request to the provider
(the full result is pinned, so no royalty payout is attempted). -/
theorem C2_check_payment_idempotent (inv : ProviderInvoice)
    (po : Except String PayoutResponse) (L : UserLedger)
    (invoice_id : String) (m : Int) (addr : Option String) (rate : ℚ)
    (minS : Int) (today now : String)
    (hmem : invoice_id ∈ L.credited_invoices)
    (hst : inv.status = "Settled") :
    checkPayment (.ok inv) po L invoice_id m addr rate minS today now
      = ({ success := true
           invoice_id := invoice_id
           status := some "Settled"
           additional_status := if inv.additionalStatus == "" then none
             else some inv.additionalStatus
           credits_granted := some 0
           balance_api_sats := some L.balance_api_sats }, L, none) := by
  simp [checkPayment, hst, hmem]

/-- Concrete instance of C2: re-checking the already-credited invoice
"inv1" grants 0 credits and leaves the ledger untouched. -/
theorem C2_check_payment_idempotent_witness :
    checkPayment (.ok { status := "Settled", amount := 777 }) (.ok {})
        { balance_api_sats := 42, credited_invoices := ["inv1"] } "inv1" 3
        (some "org@ln.tld") (1 / 50) 10 "D" "T"
      = ({ success := true
           invoice_id := "inv1"
           status := some "Settled"
           additional_status := none
           credits_granted := some 0
           balance_api_sats := some 42 },
         { balance_api_sats := 42, credited_invoices := ["inv1"] }, none) := by
  have h := C2_check_payment_idempotent
    { status := "Settled", amount := 777 } (.ok {})
    { balance_api_sats := 42, credited_invoices := ["inv1"] } "inv1" 3
    (some "org@ln.tld") (1 / 50) 10 "D" "T" (by decide) rfl
  rw [h]
  rfl

-- ---------------------------------------------------------------------------
-- C4 — low-balance advisory (corrected)
-- ---------------------------------------------------------------------------

/-- A retroactively settled invoice record: real amount unknown (0), credits
600 — exactly what `record_invoice_settled` creates for an untracked
invoice. -/
def c4Record : InvoiceRecord :=
  { invoice_id := "i1"
    amount_sats := 0
    api_sats_credited := 600
    multiplier := 0
    status := "Settled" }

/-- Ledger whose only settled invoice has `amount_sats = 0`. -/
def c4Ledger : UserLedger :=
  { balance_api_sats := 0
    invoices := [("i1", c4Record)] }

/-- C4 counterexample: on a ledger whose most recent settled invoice has
`amount_sats = 0` the advisory fires (reference 600, threshold 120 > 0), and
the code suggests 1000 — not the claim's "last settled invoice's real
amount_sats clamped to MAX_INVOICE_SATS", which here is 0. -/
theorem C4_low_balance_counterexample :
    (computeLowBalanceWarning c4Ledger 0 100).map
        (fun w => w.suggested_top_up_sats) = some 1000 ∧
    specSuggestedTopUp c4Ledger = 0 := by decide

/-- The reference amount of the advisory, per the spec's own words. -/
def lowBalanceReference (L : UserLedger) (seed floorv : Int) : Int :=
  match (settledRecords L).getLast? with
  | some last => last.api_sats_credited
  | none =>
    if 0 < seed ∧ "seed_balance_v1" ∈ L.credited_invoices then seed
    else floorv

/-- The suggested top-up as amended: the last settled invoice's real
`amount_sats` when positive, else 1000, clamped to `MAX_INVOICE_SATS`. -/
def amendedSuggestedTopUp (L : UserLedger) : Int :=
  min (match (settledRecords L).getLast? with
    | some last => if last.amount_sats ≤ 0 then 1000 else last.amount_sats
    | none => 1000) MAX_INVOICE_SATS

/-- C4 (amended): the threshold is `max(reference // 5, floor)` with the
reference as claimed; the advisory is `none` iff the balance is at least the
threshold; and otherwise it carries the threshold and a suggested top-up of
the last settled invoice's real `amount_sats` when positive — else 1000 —
clamped to `MAX_INVOICE_SATS`. -/
theorem C4_low_balance_spec_amended (L : UserLedger) (seed floorv : Int) :
    (computeLowBalanceWarning L seed floorv = none ↔
      max (Int.fdiv (lowBalanceReference L seed floorv) 5) floorv
        ≤ L.balance_api_sats) ∧
    (L.balance_api_sats
        < max (Int.fdiv (lowBalanceReference L seed floorv) 5) floorv →
      computeLowBalanceWarning L seed floorv = some
        { balance_api_sats := L.balance_api_sats
          threshold_api_sats :=
            max (Int.fdiv (lowBalanceReference L seed floorv) 5) floorv
          suggested_top_up_sats := amendedSuggestedTopUp L }) := by
  have hcode : computeLowBalanceWarning L seed floorv =
      (if max (Int.fdiv (lowBalanceReference L seed floorv) 5) floorv
          ≤ L.balance_api_sats then none
        else some { balance_api_sats := L.balance_api_sats
                    threshold_api_sats := max (Int.fdiv
                      (lowBalanceReference L seed floorv) 5) floorv
                    suggested_top_up_sats := amendedSuggestedTopUp L }) := by
    unfold computeLowBalanceWarning lowBalanceReference amendedSuggestedTopUp
    cases hlast : (settledRecords L).getLast? <;> simp [hlast]
  constructor
  · rw [hcode]
    by_cases hb : max (Int.fdiv (lowBalanceReference L seed floorv) 5) floorv
        ≤ L.balance_api_sats
    · simp [hb]
    · simp [hb]
  · intro h
    rw [hcode, if_neg (not_le.mpr h)]

/-- Concrete instance of the amended C4: an empty ledger with zero balance
is below the default threshold 100 and gets the default 1000 suggestion. -/
theorem C4_low_balance_spec_amended_witness :
    computeLowBalanceWarning {} 0 100 = some
      { balance_api_sats := 0
        threshold_api_sats := 100
        suggested_top_up_sats := 1000 } := by
  have h := (C4_low_balance_spec_amended {} 0 100).2 (by decide)
  rw [h]
  decide
